import Mathlib

/-!
Verification of the peptoid secondary-structure segment enumerator
(`ContinuousSSRMSD::init`) and of the polynomial combination function
(`function::Combine`) of this repository, via a shallow embedding in Lean.

Machine `unsigned` values are modelled as `Nat` (no overflow occurs on the
paths relevant to the theorems below) and `double` values as `ℚ`; the
`POWERS` exponents, which are `double` in the source but integral in every
configuration the claims speak about, are modelled as `ℤ`.  Fallible setup
code (`error(...)` / `plumed_massert`) is modelled with `Except String`.
-/

namespace Plumed

/-- Number of backbone atoms per residue
(`ContinuousSSRMSD::ATOMS_IN_BB_RES = 5`). -/
def ATOMS_IN_BB_RES : Nat := 5

/-- Windows contributed by a single backbone chain, mirroring the inner loops
of `ContinuousSSRMSD::init`: with `nres = chainLen / ATOMS_IN_BB_RES`, for
each `ires` with `0 ≤ ires ≤ nres - refsize / ATOMS_IN_BB_RES` the window is
`nlist[k] = nprevious + ATOMS_IN_BB_RES * ires + k` for `k < refsize`. -/
def chainWindows (refsize nprevious chainLen : Nat) : List (List Nat) :=
  (List.range (chainLen / ATOMS_IN_BB_RES - refsize / ATOMS_IN_BB_RES + 1)).map
    (fun ires => (List.range refsize).map
      (fun k => nprevious + ATOMS_IN_BB_RES * ires + k))

/-- The per-chain loop of `ContinuousSSRMSD::init`.  Each chain is checked
(`chains[i] < refstructure.size()` and `chains[i] % ATOMS_IN_BB_RES != 0`
are fatal configuration errors, in that order) and then contributes its
windows; `nprevious` advances by the chain's atom count.  The windows are
returned grouped per chain, in the order the source pushes them with
`addColvar`. -/
def initLoop (refsize : Nat) : List Nat → Nat → Except String (List (List (List Nat)))
  | [], _ => .ok []
  | chainLen :: rest, nprevious =>
    if chainLen < refsize then
      .error "segment of backbone defined is not long enough to form this reference"
    else if chainLen % ATOMS_IN_BB_RES ≠ 0 then
      .error "backbone segment received does not contain a multiple of 5 residues"
    else
      match initLoop refsize rest (nprevious + chainLen) with
      | .error e => .error e
      | .ok gws => .ok (chainWindows refsize nprevious chainLen :: gws)

/-- Setup `ContinuousSSRMSD::init`, keeping the per-chain grouping of the windows.
The two `plumed_massert` template-shape assertions run first; then the chains
are enumerated starting from offset `nprevious = 0`. -/
def ContinuousSSRMSD.initGrouped (chains : List Nat) (refsize : Nat) :
    Except String (List (List (List Nat))) :=
  if refsize = 0 then
    .error "reference structure must not be empty"
  else if refsize % ATOMS_IN_BB_RES ≠ 0 then
    .error "reference structure be a multiple of 5 residues"
  else
    initLoop refsize chains 0

/-- Setup `ContinuousSSRMSD::init` as the source observes it: the flat sequence of
windows passed to `addColvar`, in order. -/
def ContinuousSSRMSD.init (chains : List Nat) (refsize : Nat) :
    Except String (List (List Nat)) :=
  (ContinuousSSRMSD.initGrouped chains refsize).map List.flatten

/-- Pure characterization of the successful runs of `initLoop`, used in the
proofs below: the grouped windows are `chainWindows` at the running prefix
offsets. -/
def windowsSpec (refsize : Nat) : List Nat → Nat → List (List (List Nat))
  | [], _ => []
  | chainLen :: rest, nprevious =>
    chainWindows refsize nprevious chainLen ::
      windowsSpec refsize rest (nprevious + chainLen)

theorem initLoop_ok_of_valid (refsize : Nat) :
    ∀ (chains : List Nat) (nprevious : Nat),
      (∀ c ∈ chains, refsize ≤ c ∧ c % ATOMS_IN_BB_RES = 0) →
      initLoop refsize chains nprevious = .ok (windowsSpec refsize chains nprevious) := by
  intro chains
  induction chains with
  | nil => intro nprevious _; rfl
  | cons c rest ih =>
    intro nprevious h
    have hc := h c (List.mem_cons_self _ _)
    have hrest : ∀ x ∈ rest, refsize ≤ x ∧ x % ATOMS_IN_BB_RES = 0 :=
      fun x hx => h x (List.mem_cons_of_mem _ hx)
    simp only [initLoop]
    rw [if_neg (Nat.not_lt.mpr hc.1)]
    rw [if_neg (not_not_intro hc.2)]
    rw [ih (nprevious + c) hrest]
    rfl

theorem initLoop_ok_inv (refsize : Nat) :
    ∀ (chains : List Nat) (nprevious : Nat) (gws : List (List (List Nat))),
      initLoop refsize chains nprevious = .ok gws →
      gws = windowsSpec refsize chains nprevious ∧
        ∀ c ∈ chains, refsize ≤ c ∧ c % ATOMS_IN_BB_RES = 0 := by
  intro chains
  induction chains with
  | nil =>
    intro nprevious gws h
    simp only [initLoop] at h
    cases h
    exact ⟨rfl, by simp⟩
  | cons c rest ih =>
    intro nprevious gws h
    simp only [initLoop] at h
    by_cases h1 : c < refsize
    · rw [if_pos h1] at h; cases h
    · rw [if_neg h1] at h
      by_cases h2 : c % ATOMS_IN_BB_RES ≠ 0
      · rw [if_pos h2] at h; cases h
      · rw [if_neg h2] at h
        rcases hrec : initLoop refsize rest (nprevious + c) with e | gws'
        · rw [hrec] at h; cases h
        · rw [hrec] at h
          cases h
          obtain ⟨hspec, hvalid⟩ := ih (nprevious + c) gws' hrec
          refine ⟨by rw [windowsSpec, hspec], ?_⟩
          intro x hx
          rcases List.mem_cons.mp hx with rfl | hx'
          · exact ⟨Nat.not_lt.mp h1, by simpa using h2⟩
          · exact hvalid x hx'

theorem windowsSpec_length (refsize : Nat) :
    ∀ (chains : List Nat) (nprevious : Nat),
      (windowsSpec refsize chains nprevious).length = chains.length := by
  intro chains
  induction chains with
  | nil => intro _; rfl
  | cons c rest ih => intro nprevious; simp [windowsSpec, ih]

theorem windowsSpec_getD (refsize : Nat) :
    ∀ (chains : List Nat) (nprevious i : Nat), i < chains.length →
      (windowsSpec refsize chains nprevious).getD i [] =
        chainWindows refsize (nprevious + (chains.take i).sum) (chains.getD i 0) := by
  intro chains
  induction chains with
  | nil => intro _ i h; simp at h
  | cons c rest ih =>
    intro nprevious i h
    cases i with
    | zero => simp [windowsSpec]
    | succ j =>
      have hj : j < rest.length := by simpa using h
      simp only [windowsSpec, List.getD_cons_succ, List.take_succ_cons, List.sum_cons]
      rw [ih (nprevious + c) j hj]
      ring_nf

theorem chainWindows_length (refsize nprevious chainLen : Nat) :
    (chainWindows refsize nprevious chainLen).length =
      chainLen / ATOMS_IN_BB_RES - refsize / ATOMS_IN_BB_RES + 1 := by
  simp [chainWindows]

theorem chainWindows_atom_bound (refsize nprevious chainLen : Nat)
    (h5 : refsize % ATOMS_IN_BB_RES = 0) (hge : refsize ≤ chainLen)
    (hc5 : chainLen % ATOMS_IN_BB_RES = 0) :
    ∀ w ∈ chainWindows refsize nprevious chainLen, ∀ a ∈ w,
      nprevious ≤ a ∧ a < nprevious + chainLen := by
  intro w hw a ha
  simp only [chainWindows, List.mem_map, List.mem_range] at hw
  obtain ⟨ires, hires, rfl⟩ := hw
  simp only [List.mem_map, List.mem_range] at ha
  obtain ⟨k, hk, rfl⟩ := ha
  unfold ATOMS_IN_BB_RES at *
  omega

theorem take_sum_add_le :
    ∀ (l : List Nat) (i j : Nat), i < j → j ≤ l.length →
      (l.take i).sum + l.getD i 0 ≤ (l.take j).sum
  | [], _, _, hij, hj => by simp at hj; omega
  | c :: rest, 0, j, hij, hj => by
    cases j with
    | zero => omega
    | succ j' =>
      simp only [List.take_zero, List.sum_nil, List.getD_cons_zero,
        List.take_succ_cons, List.sum_cons]
      omega
  | c :: rest, i' + 1, j, hij, hj => by
    cases j with
    | zero => omega
    | succ j' =>
      simp only [List.take_succ_cons, List.sum_cons, List.getD_cons_succ]
      have := take_sum_add_le rest i' j' (by omega) (by simpa using hj)
      omega

theorem getD_range_map (f : Nat → Nat) (n j : Nat) (h : j < n) :
    ((List.range n).map f).getD j 0 = f j := by
  rw [List.getD_eq_getElem]
  rotate_left
  · simp [h]
  · simp [List.getElem_map]

theorem mem_windowsSpec_flatten (refsize : Nat) :
    ∀ (chains : List Nat) (nprevious : Nat) (w : List Nat),
      w ∈ (windowsSpec refsize chains nprevious).flatten →
      ∃ i, i < chains.length ∧ ∃ ires,
        w = (List.range refsize).map
          (fun k => nprevious + (chains.take i).sum + ATOMS_IN_BB_RES * ires + k) := by
  intro chains
  induction chains with
  | nil => intro nprev w h; rw [windowsSpec] at h; simp at h
  | cons c rest ih =>
    intro nprev w h
    rw [windowsSpec, List.flatten_cons] at h
    rcases List.mem_append.mp h with h1 | h2
    · simp only [chainWindows, List.mem_map, List.mem_range] at h1
      obtain ⟨ires, _, rfl⟩ := h1
      exact ⟨0, by simp, ires, by simp⟩
    · obtain ⟨i, hi, ires, hw⟩ := ih (nprev + c) w h2
      refine ⟨i + 1, by simpa using hi, ires, ?_⟩
      rw [hw]
      simp only [List.take_succ_cons, List.sum_cons]
      congr 1
      funext k
      ring

/-- C1: for every chain whose atom count is an exact multiple of
`ATOMS_IN_BB_RES = 5` and whose residue count `L` is at least the template
residue count `T`, `ContinuousSSRMSD::init` succeeds and produces exactly
`L - T + 1` windows for that chain (the `i`-th group of the grouped result
has exactly `chains[i]/5 - T + 1` windows). -/
theorem init_window_count (T : Nat) (hT : 1 ≤ T) (chains : List Nat)
    (hc : ∀ c ∈ chains, c % ATOMS_IN_BB_RES = 0 ∧ T ≤ c / ATOMS_IN_BB_RES) :
    ∃ gws, ContinuousSSRMSD.initGrouped chains (ATOMS_IN_BB_RES * T) = Except.ok gws ∧
      gws.length = chains.length ∧
      ∀ i, i < chains.length →
        (gws.getD i []).length = chains.getD i 0 / ATOMS_IN_BB_RES - T + 1 := by
  have h0 : ATOMS_IN_BB_RES * T ≠ 0 := by unfold ATOMS_IN_BB_RES; omega
  have h5 : (ATOMS_IN_BB_RES * T) % ATOMS_IN_BB_RES = 0 := Nat.mul_mod_right _ _
  have hvalid : ∀ c ∈ chains, ATOMS_IN_BB_RES * T ≤ c ∧ c % ATOMS_IN_BB_RES = 0 := by
    intro c hcm
    obtain ⟨hm, hT2⟩ := hc c hcm
    refine ⟨?_, hm⟩
    calc ATOMS_IN_BB_RES * T ≤ ATOMS_IN_BB_RES * (c / ATOMS_IN_BB_RES) :=
          Nat.mul_le_mul_left _ hT2
      _ = c := Nat.mul_div_cancel' (Nat.dvd_of_mod_eq_zero hm)
  refine ⟨windowsSpec (ATOMS_IN_BB_RES * T) chains 0, ?_, ?_, ?_⟩
  · unfold ContinuousSSRMSD.initGrouped
    rw [if_neg h0, if_neg (not_not_intro h5)]
    exact initLoop_ok_of_valid _ chains 0 hvalid
  · exact windowsSpec_length _ chains 0
  · intro i hi
    rw [windowsSpec_getD _ chains 0 i hi, chainWindows_length]
    congr 2
    exact Nat.mul_div_cancel_left T (by unfold ATOMS_IN_BB_RES; omega)

/-- Witness for C1: a single chain of `L = 10` residues (50 atoms) with a
template of `T = 3` residues (15 atoms) yields exactly `10 - 3 + 1 = 8`
windows. -/
theorem init_window_count_witness :
    ∃ gws, ContinuousSSRMSD.initGrouped [50] (ATOMS_IN_BB_RES * 3) = Except.ok gws ∧
      gws.length = [50].length ∧
      ∀ i, i < [50].length →
        (gws.getD i []).length = [50].getD i 0 / ATOMS_IN_BB_RES - 3 + 1 :=
  init_window_count 3 (by decide) [50] (by decide)

/-- C3: `ContinuousSSRMSD::init` fails with a configuration error whenever
some chain has fewer atoms than the template length or an atom count that is
not a multiple of `ATOMS_IN_BB_RES = 5`; under these failures no window list
is produced (initialization does not complete). -/
theorem init_error_of_invalid_chain (chains : List Nat) (refsize : Nat)
    (h : ∃ c ∈ chains, c < refsize ∨ c % ATOMS_IN_BB_RES ≠ 0) :
    ∃ e, ContinuousSSRMSD.init chains refsize = Except.error e := by
  rcases hres : ContinuousSSRMSD.initGrouped chains refsize with e | gws
  · exact ⟨e, by simp [ContinuousSSRMSD.init, hres, Except.map]⟩
  · exfalso
    unfold ContinuousSSRMSD.initGrouped at hres
    by_cases h0 : refsize = 0
    · rw [if_pos h0] at hres; cases hres
    · rw [if_neg h0] at hres
      by_cases h5 : refsize % ATOMS_IN_BB_RES ≠ 0
      · rw [if_pos h5] at hres; cases hres
      · rw [if_neg h5] at hres
        obtain ⟨_, hvalid⟩ := initLoop_ok_inv refsize chains 0 gws hres
        obtain ⟨c, hcm, hbad⟩ := h
        obtain ⟨hge, hmod⟩ := hvalid c hcm
        rcases hbad with hlt | hmod2
        · exact absurd hge (Nat.not_le.mpr hlt)
        · exact hmod2 hmod

/-- Witness for C3: a single chain of 7 atoms against a 15-atom template
(too short, and 7 is not a multiple of 5) makes `init` fail. -/
theorem init_error_of_invalid_chain_witness :
    ∃ e, ContinuousSSRMSD.init [7] 15 = Except.error e :=
  init_error_of_invalid_chain [7] 15 ⟨7, by decide, by decide⟩

/-- C4: every window produced by `ContinuousSSRMSD::init` has exactly
template-length atom indices, the indices are contiguous (index `j` is the
first index plus `j`, hence strictly increasing), and the first index is the
chain start (`(chains.take i).sum`) plus a multiple of `ATOMS_IN_BB_RES = 5`:
windows are residue-aligned and never split a residue. -/
theorem init_window_shape (chains : List Nat) (refsize : Nat) (ws : List (List Nat))
    (hok : ContinuousSSRMSD.init chains refsize = Except.ok ws) :
    ∀ w ∈ ws, w.length = refsize ∧
      (∀ j, j < refsize → w.getD j 0 = w.getD 0 0 + j) ∧
      ∃ i, i < chains.length ∧ ∃ m,
        w.getD 0 0 = (chains.take i).sum + ATOMS_IN_BB_RES * m := by
  rcases hres : ContinuousSSRMSD.initGrouped chains refsize with e | gws
  · rw [ContinuousSSRMSD.init, hres] at hok; cases hok
  · rw [ContinuousSSRMSD.init, hres] at hok
    have hws : gws.flatten = ws := by
      simpa [Except.map] using hok
    unfold ContinuousSSRMSD.initGrouped at hres
    by_cases h0 : refsize = 0
    · rw [if_pos h0] at hres; cases hres
    rw [if_neg h0] at hres
    by_cases h5 : refsize % ATOMS_IN_BB_RES ≠ 0
    · rw [if_pos h5] at hres; cases hres
    rw [if_neg h5] at hres
    obtain ⟨hg, _⟩ := initLoop_ok_inv refsize chains 0 gws hres
    subst hg
    intro w hw
    rw [← hws] at hw
    obtain ⟨i, hi, ires, rfl⟩ := mem_windowsSpec_flatten refsize chains 0 w hw
    have hrs : 0 < refsize := Nat.pos_of_ne_zero h0
    refine ⟨by simp, ?_, ?_⟩
    · intro j hj
      rw [getD_range_map _ _ _ hj, getD_range_map _ _ _ hrs]
      omega
    · refine ⟨i, hi, ires, ?_⟩
      rw [getD_range_map _ _ _ hrs]
      omega

/-- Witness for C4: the single window of a 15-atom chain against a 15-atom
template has 15 contiguous indices starting at the chain start. -/
theorem init_window_shape_witness :
    ContinuousSSRMSD.init [15] 15 =
      Except.ok [(List.range 15).map (fun k => 0 + ATOMS_IN_BB_RES * 0 + k)] ∧
    ∀ w ∈ [(List.range 15).map (fun k => 0 + ATOMS_IN_BB_RES * 0 + k)],
      w.length = 15 ∧
      (∀ j, j < 15 → w.getD j 0 = w.getD 0 0 + j) ∧
      ∃ i, i < [15].length ∧ ∃ m,
        w.getD 0 0 = ([15].take i).sum + ATOMS_IN_BB_RES * m := by
  have h : ContinuousSSRMSD.init [15] 15 =
      Except.ok [(List.range 15).map (fun k => 0 + ATOMS_IN_BB_RES * 0 + k)] := by rfl
  exact ⟨h, init_window_shape [15] 15 _ h⟩

/-- C5: windows coming from two different chains are disjoint: the offset
`nprevious` advances by each chain's full atom count, so the atom-index
ranges of distinct chains never overlap. -/
theorem init_cross_chain_disjoint (chains : List Nat) (refsize : Nat)
    (gws : List (List (List Nat)))
    (hok : ContinuousSSRMSD.initGrouped chains refsize = Except.ok gws)
    (i j : Nat) (hi : i < gws.length) (hj : j < gws.length) (hij : i ≠ j)
    (w1 : List Nat) (hw1 : w1 ∈ gws.getD i []) (w2 : List Nat)
    (hw2 : w2 ∈ gws.getD j []) (a : Nat) (ha : a ∈ w1) : a ∉ w2 := by
  intro ha2
  unfold ContinuousSSRMSD.initGrouped at hok
  by_cases h0 : refsize = 0
  · rw [if_pos h0] at hok; cases hok
  rw [if_neg h0] at hok
  by_cases h5 : refsize % ATOMS_IN_BB_RES ≠ 0
  · rw [if_pos h5] at hok; cases hok
  rw [if_neg h5] at hok
  obtain ⟨hg, hvalid⟩ := initLoop_ok_inv refsize chains 0 gws hok
  subst hg
  have hlen := windowsSpec_length refsize chains 0
  rw [hlen] at hi hj
  have hmem_i : chains.getD i 0 ∈ chains := by
    rw [List.getD_eq_getElem chains 0 hi]; exact List.getElem_mem _
  have hmem_j : chains.getD j 0 ∈ chains := by
    rw [List.getD_eq_getElem chains 0 hj]; exact List.getElem_mem _
  have hci := hvalid _ hmem_i
  have hcj := hvalid _ hmem_j
  rw [windowsSpec_getD refsize chains 0 i hi] at hw1
  rw [windowsSpec_getD refsize chains 0 j hj] at hw2
  have hb1 := chainWindows_atom_bound refsize _ _ (not_not.mp h5) hci.1 hci.2 w1 hw1 a ha
  have hb2 := chainWindows_atom_bound refsize _ _ (not_not.mp h5) hcj.1 hcj.2 w2 hw2 a ha2
  rcases Nat.lt_or_ge i j with hlt | hge
  · have hmono := take_sum_add_le chains i j hlt (Nat.le_of_lt hj)
    omega
  · have hlt : j < i := Nat.lt_of_le_of_ne hge (Ne.symm hij)
    have hmono := take_sum_add_le chains j i hlt (Nat.le_of_lt hi)
    omega

/-- Witness for C5: two 15-atom chains each against a 15-atom template give
one window per chain; atom 0 of the first chain's window is not in the
second chain's window. -/
theorem init_cross_chain_disjoint_witness :
    0 ∉ (List.range 15).map (fun k => 15 + ATOMS_IN_BB_RES * 0 + k) := by
  apply init_cross_chain_disjoint [15, 15] 15
      [[(List.range 15).map (fun k => 0 + ATOMS_IN_BB_RES * 0 + k)],
       [(List.range 15).map (fun k => 15 + ATOMS_IN_BB_RES * 0 + k)]]
      (by rfl) 0 1 (by decide) (by decide) (by decide)
      ((List.range 15).map (fun k => 0 + ATOMS_IN_BB_RES * 0 + k)) (by decide)
      ((List.range 15).map (fun k => 15 + ATOMS_IN_BB_RES * 0 + k)) (by decide)
      0 (by decide)

/-!
Embedding of `function::Combine` (src/function/Combine.cpp).  The evaluation
buffer `MultiValue` keeps the value of component 0 and the derivative with
respect to each scalar argument; `addValue` and `addDerivative` accumulate
into it as the source helpers do.
-/

/-- Evaluation buffer for one task: the value of component 0 together with
the derivative with respect to each argument index. -/
structure MultiValue where
  value : ℚ
  deriv : Nat → ℚ

/-- A freshly zeroed `MultiValue`, the state in which `calculateFunction`
finds the buffer for a task. -/
def MultiValue.zero : MultiValue := ⟨0, fun _ => 0⟩

/-- Source helper `addValue(0, v, myvals)`: accumulate `v` into the value of
component 0. -/
def addValue (v : ℚ) (mv : MultiValue) : MultiValue :=
  { mv with value := mv.value + v }

/-- Source helper `addDerivative(0, i, d, myvals)`: accumulate `d` into the
derivative of component 0 with respect to argument `i`. -/
def addDerivative (i : Nat) (d : ℚ) (mv : MultiValue) : MultiValue :=
  { mv with deriv := fun j => if j = i then mv.deriv j + d else mv.deriv j }

/-- The member state of a constructed `Combine` action: the (possibly
normalized) coefficients `c`, the parameters `a` and the powers `p` of
`C = sum_i c_i (x_i - a_i)^(p_i)`. -/
structure CombineState where
  coefficients : List ℚ
  parameters : List ℚ
  powers : List ℤ

/-- Setup-time inputs of `Combine::Combine`: the addressing mode
(`numberedkeys`), the shape data the constructor inspects (rank of the first
argument, `arg_ends.size()`, the two argument counts) and the parsed
`COEFFICIENTS`, `PARAMETERS`, `POWERS` vectors plus the `NORMALIZE` flag. -/
structure CombineOptions where
  numberedkeys : Bool
  firstArgRank : Nat
  argEndsSize : Nat
  nScalarArgs : Nat
  nArgs : Nat
  coefficientsIn : List ℚ
  parametersIn : List ℚ
  powersIn : List ℤ
  normalize : Bool

/-- The argument count against which the parsed vectors are checked: the
`!numberedkeys` branch uses `getNumberOfScalarArguments()`, the numbered
branch uses `getNumberOfArguments()`. -/
def Combine.nargs (o : CombineOptions) : Nat :=
  if o.numberedkeys then o.nArgs else o.nScalarArgs

/-- Constructor `Combine::Combine`: the setup-time checks, in source
order (non-scalar-argument check, then the three size checks, each fatal via
`error(...)`), followed by the `NORMALIZE` rescaling
`coefficients[i] *= 1.0/n` with `n` the sum of the coefficients.  There is
no check that `n` is nonzero. -/
def Combine.construct (o : CombineOptions) : Except String CombineState :=
  if o.numberedkeys = false ∧ 0 < o.firstArgRank ∧ o.argEndsSize ≠ 2 then
    .error "should only specify one non-scalar argument in input to ARG keyword"
  else if o.coefficientsIn.length ≠ Combine.nargs o then
    .error "Size of COEFFICIENTS array should be the same as number for arguments"
  else if o.parametersIn.length ≠ Combine.nargs o then
    .error "Size of PARAMETERS array should be the same as number for arguments"
  else if o.powersIn.length ≠ Combine.nargs o then
    .error "Size of POWERS array should be the same as number for arguments"
  else
    let coefficients :=
      if o.normalize then
        o.coefficientsIn.map (fun c => c * (1 / o.coefficientsIn.sum))
      else o.coefficientsIn
    .ok ⟨coefficients, o.parametersIn, o.powersIn⟩

/-- Modelled from the spec: the periodic-aware difference of a non-periodic
scalar value (`Value::difference`, which lives in `core/`, outside the files
at hand) is plain subtraction `d2 - d1`, with derivative 1. -/
def nonPeriodicDifference : Nat → ℚ → ℚ → ℚ := fun _ d1 d2 => d2 - d1

/-- The `for(i=0; i<coefficients.size(); ++i)` loop of the multi-argument
branch of `Combine::calculateFunction`, iterating `combineLoop n` over the
indices `0, …, n-1` in order: each step computes
`cv = difference(i, parameters[i], args[i])`, accumulates
`coefficients[i]*cv^powers[i]` into the running value and records the
derivative `coefficients[i]*powers[i]*cv^(powers[i]-1)` for argument `i`. -/
def combineLoop (st : CombineState) (diffFn : Nat → ℚ → ℚ → ℚ)
    (args : List ℚ) : Nat → ℚ × MultiValue → ℚ × MultiValue
  | 0, s => s
  | i + 1, s =>
    let s2 := combineLoop st diffFn args i s
    let cv := diffFn i (st.parameters.getD i 0) (args.getD i 0)
    (s2.1 + st.coefficients.getD i 0 * cv ^ st.powers.getD i 1,
     addDerivative i
       (st.coefficients.getD i 0 * (st.powers.getD i 1 : ℚ) *
         cv ^ (st.powers.getD i 1 - 1)) s2.2)

/-- Evaluation `Combine::calculateFunction`.  When a single argument is supplied and the
keywords are not numbered, the task-index branch evaluates one term of the
repeated pattern; otherwise the loop over all coefficients runs and the
accumulated value is added with `addValue`. -/
def Combine.calculateFunction (st : CombineState) (numberedkeys : Bool)
    (taskIndex : Nat) (diffFn : Nat → ℚ → ℚ → ℚ) (args : List ℚ)
    (myvals : MultiValue) : MultiValue :=
  if args.length = 1 ∧ numberedkeys = false then
    let cv := diffFn 0 (st.parameters.getD taskIndex 0) (args.getD 0 0)
    let combine := st.coefficients.getD taskIndex 0 * cv ^ st.powers.getD taskIndex 1
    let myvals2 := addDerivative 0
      (st.coefficients.getD taskIndex 0 * (st.powers.getD taskIndex 1 : ℚ) *
        cv ^ (st.powers.getD taskIndex 1 - 1)) myvals
    addValue combine myvals2
  else
    let s := combineLoop st diffFn args st.coefficients.length (0, myvals)
    addValue s.1 s.2

theorem combineLoop_value (st : CombineState) (diffFn : Nat → ℚ → ℚ → ℚ)
    (args : List ℚ) :
    ∀ (n : Nat) (s : ℚ × MultiValue),
      (combineLoop st diffFn args n s).1 =
        s.1 + ((List.range n).map (fun i =>
          st.coefficients.getD i 0 *
            (diffFn i (st.parameters.getD i 0) (args.getD i 0)) ^
              st.powers.getD i 1)).sum := by
  intro n
  induction n with
  | zero => intro s; simp [combineLoop]
  | succ m ih =>
    intro s
    rw [combineLoop]
    simp only [List.range_succ, List.map_append, List.sum_append,
      List.map_cons, List.map_nil, List.sum_cons, List.sum_nil]
    rw [ih s]
    ring

theorem combineLoop_value_untouched (st : CombineState)
    (diffFn : Nat → ℚ → ℚ → ℚ) (args : List ℚ) :
    ∀ (n : Nat) (s : ℚ × MultiValue),
      (combineLoop st diffFn args n s).2.value = s.2.value := by
  intro n
  induction n with
  | zero => intro s; rfl
  | succ m ih => intro s; rw [combineLoop]; simp only [addDerivative]; exact ih s

theorem combineLoop_deriv (st : CombineState) (diffFn : Nat → ℚ → ℚ → ℚ)
    (args : List ℚ) :
    ∀ (n : Nat) (s : ℚ × MultiValue) (j : Nat),
      (combineLoop st diffFn args n s).2.deriv j =
        s.2.deriv j + (if j < n then
          st.coefficients.getD j 0 * (st.powers.getD j 1 : ℚ) *
            (diffFn j (st.parameters.getD j 0) (args.getD j 0)) ^
              (st.powers.getD j 1 - 1)
        else 0) := by
  intro n
  induction n with
  | zero => intro s j; simp [combineLoop]
  | succ m ih =>
    intro s j
    rw [combineLoop]
    simp only [addDerivative]
    by_cases hj : j = m
    · subst hj
      rw [if_pos rfl, ih s j, if_neg (Nat.lt_irrefl j), if_pos (Nat.lt_succ_self j)]
      ring
    · rw [if_neg hj, ih s j]
      by_cases hjm : j < m
      · rw [if_pos hjm, if_pos (Nat.lt_succ_of_lt hjm)]
      · rw [if_neg hjm, if_neg (by omega)]

theorem getD_sum_range (l : List ℚ) :
    ((List.range l.length).map (fun i => l.getD i 0)).sum = l.sum := by
  induction l with
  | nil => simp
  | cons a t ih =>
    rw [List.length_cons, List.range_succ_eq_map, List.map_cons, List.map_map,
      List.sum_cons]
    have : (fun i => (a :: t).getD i 0) ∘ (· + 1) = fun i => t.getD i 0 := by
      funext i; simp
    rw [this, ih]
    simp

theorem calculateFunction_multi_spec (st : CombineState) (numberedkeys : Bool)
    (taskIndex : Nat) (diffFn : Nat → ℚ → ℚ → ℚ) (args : List ℚ)
    (hbranch : numberedkeys = true ∨ args.length ≠ 1)
    (hlen : args.length = st.coefficients.length) :
    (Combine.calculateFunction st numberedkeys taskIndex diffFn args
        MultiValue.zero).value =
      ((List.range st.coefficients.length).map (fun i =>
        st.coefficients.getD i 0 *
          (diffFn i (st.parameters.getD i 0) (args.getD i 0)) ^
            st.powers.getD i 1)).sum ∧
    ∀ i, i < st.coefficients.length →
      (Combine.calculateFunction st numberedkeys taskIndex diffFn args
          MultiValue.zero).deriv i =
        st.coefficients.getD i 0 * (st.powers.getD i 1 : ℚ) *
          (diffFn i (st.parameters.getD i 0) (args.getD i 0)) ^
            (st.powers.getD i 1 - 1) := by
  have hcond : ¬(args.length = 1 ∧ numberedkeys = false) := by
    rcases hbranch with h | h
    · rintro ⟨_, h2⟩; rw [h] at h2; cases h2
    · rintro ⟨h1, _⟩; exact h h1
  constructor
  · rw [Combine.calculateFunction, if_neg hcond]
    show (combineLoop st diffFn args st.coefficients.length
      (0, MultiValue.zero)).2.value + _ = _
    rw [combineLoop_value_untouched, combineLoop_value]
    show (0 : ℚ) + (0 + _) = _
    ring
  · intro i hi
    rw [Combine.calculateFunction, if_neg hcond]
    show (combineLoop st diffFn args st.coefficients.length
      (0, MultiValue.zero)).2.deriv i = _
    rw [combineLoop_deriv, if_pos hi]
    show (0 : ℚ) + _ = _
    ring

/-- C2: in the multi-argument mode of `Combine::calculateFunction` (the
`else` branch), the value recorded for a fresh evaluation buffer is
`sum_i c_i * (x_i - a_i)^(p_i)` where the subtraction is the argument's
periodic-aware `difference`, and the derivative recorded for argument `i` is
`c_i * p_i * (x_i - a_i)^(p_i - 1)`. -/
theorem calculateFunction_multi (st : CombineState) (numberedkeys : Bool)
    (taskIndex : Nat) (diffFn : Nat → ℚ → ℚ → ℚ) (args : List ℚ)
    (hbranch : numberedkeys = true ∨ args.length ≠ 1)
    (hlen : args.length = st.coefficients.length) :
    (Combine.calculateFunction st numberedkeys taskIndex diffFn args
        MultiValue.zero).value =
      ((List.range st.coefficients.length).map (fun i =>
        st.coefficients.getD i 0 *
          (diffFn i (st.parameters.getD i 0) (args.getD i 0)) ^
            st.powers.getD i 1)).sum ∧
    ∀ i, i < st.coefficients.length →
      (Combine.calculateFunction st numberedkeys taskIndex diffFn args
          MultiValue.zero).deriv i =
        st.coefficients.getD i 0 * (st.powers.getD i 1 : ℚ) *
          (diffFn i (st.parameters.getD i 0) (args.getD i 0)) ^
            (st.powers.getD i 1 - 1) :=
  calculateFunction_multi_spec st numberedkeys taskIndex diffFn args hbranch hlen

/-- Witness for C2: one coefficient 2, parameter 1, power 3 on the input 4
with plain subtraction gives value `2*(4-1)^3 = 54` and derivative
`2*3*(4-1)^2 = 54`. -/
theorem calculateFunction_multi_witness :
    (Combine.calculateFunction ⟨[2], [1], [3]⟩ true 0 nonPeriodicDifference [4]
        MultiValue.zero).value =
      ((List.range 1).map (fun i =>
        ([2] : List ℚ).getD i 0 *
          (nonPeriodicDifference i (([1] : List ℚ).getD i 0)
              (([4] : List ℚ).getD i 0)) ^ ([3] : List ℤ).getD i 1)).sum ∧
    ∀ i, i < 1 →
      (Combine.calculateFunction ⟨[2], [1], [3]⟩ true 0 nonPeriodicDifference [4]
          MultiValue.zero).deriv i =
        ([2] : List ℚ).getD i 0 * (([3] : List ℤ).getD i 1 : ℚ) *
          (nonPeriodicDifference i (([1] : List ℚ).getD i 0)
              (([4] : List ℚ).getD i 0)) ^ (([3] : List ℤ).getD i 1 - 1) :=
  calculateFunction_multi ⟨[2], [1], [3]⟩ true 0 nonPeriodicDifference [4]
    (Or.inl rfl) rfl

theorem getD_replicate_of_lt {α : Type} (a d : α) (n i : Nat) (h : i < n) :
    (List.replicate n a).getD i d = a := by
  rw [List.getD_eq_getElem]
  rotate_left
  · simpa using h
  · simp

/-- C9: with all powers 1, all coefficients 1 and all parameters 0, on
non-periodic inputs `Combine` returns exactly the plain sum of the inputs,
with derivative 1 with respect to every input. -/
theorem calculateFunction_plain_sum (args : List ℚ) (taskIndex : Nat) :
    (Combine.calculateFunction
        ⟨List.replicate args.length 1, List.replicate args.length 0,
          List.replicate args.length 1⟩
        true taskIndex nonPeriodicDifference args MultiValue.zero).value =
      args.sum ∧
    ∀ i, i < args.length →
      (Combine.calculateFunction
          ⟨List.replicate args.length 1, List.replicate args.length 0,
            List.replicate args.length 1⟩
          true taskIndex nonPeriodicDifference args MultiValue.zero).deriv i = 1 := by
  have hlen : args.length = (List.replicate args.length (1 : ℚ)).length := by simp
  obtain ⟨hval, hder⟩ := calculateFunction_multi_spec
    ⟨List.replicate args.length 1, List.replicate args.length 0,
      List.replicate args.length 1⟩
    true taskIndex nonPeriodicDifference args (Or.inl rfl) hlen
  constructor
  · rw [hval]
    show ((List.range (List.replicate args.length (1 : ℚ)).length).map _).sum = _
    rw [List.length_replicate]
    have hmapeq : (List.range args.length).map (fun i =>
        (List.replicate args.length (1 : ℚ)).getD i 0 *
          (nonPeriodicDifference i
              ((List.replicate args.length (0 : ℚ)).getD i 0) (args.getD i 0)) ^
            (List.replicate args.length (1 : ℤ)).getD i 1) =
        (List.range args.length).map (fun i => args.getD i 0) := by
      apply List.map_congr_left
      intro i hi
      rw [List.mem_range] at hi
      rw [getD_replicate_of_lt (1 : ℚ) 0 args.length i hi,
        getD_replicate_of_lt (0 : ℚ) 0 args.length i hi,
        getD_replicate_of_lt (1 : ℤ) 1 args.length i hi]
      simp [nonPeriodicDifference]
    rw [hmapeq, getD_sum_range]
  · intro i hi
    have hi2 : i < (List.replicate args.length (1 : ℚ)).length := by simpa using hi
    rw [hder i hi2]
    rw [getD_replicate_of_lt (1 : ℚ) 0 args.length i hi,
      getD_replicate_of_lt (1 : ℤ) 1 args.length i hi]
    norm_num

theorem list_sum_map_mul_right (l : List ℚ) (r : ℚ) :
    (l.map (fun c => c * r)).sum = l.sum * r := by
  induction l with
  | nil => simp
  | cons a t ih => simp [ih]; ring

/-- C6: with the `NORMALIZE` flag set and a nonzero coefficient sum `n`, the
constructor replaces every coefficient `c_i` by `c_i * (1/n)`, and after
construction the coefficients sum to exactly 1. -/
theorem construct_normalize_sum_one (o : CombineOptions)
    (hnorm : o.normalize = true)
    (hsum : o.coefficientsIn.sum ≠ 0)
    (hrank : ¬(o.numberedkeys = false ∧ 0 < o.firstArgRank ∧ o.argEndsSize ≠ 2))
    (hc : o.coefficientsIn.length = Combine.nargs o)
    (hp : o.parametersIn.length = Combine.nargs o)
    (hq : o.powersIn.length = Combine.nargs o) :
    ∃ st, Combine.construct o = Except.ok st ∧
      st.coefficients =
        o.coefficientsIn.map (fun c => c * (1 / o.coefficientsIn.sum)) ∧
      st.coefficients.sum = 1 := by
  refine ⟨⟨o.coefficientsIn.map (fun c => c * (1 / o.coefficientsIn.sum)),
    o.parametersIn, o.powersIn⟩, ?_, rfl, ?_⟩
  · unfold Combine.construct
    rw [if_neg hrank, if_neg (not_not_intro hc), if_neg (not_not_intro hp),
      if_neg (not_not_intro hq)]
    simp [hnorm]
  · show (o.coefficientsIn.map (fun c => c * (1 / o.coefficientsIn.sum))).sum = 1
    rw [list_sum_map_mul_right]
    field_simp

/-- Witness for C6: coefficients `[1, 3]` with `NORMALIZE` become
`[1/4, 3/4]`, which sum to exactly 1. -/
theorem construct_normalize_sum_one_witness :
    ∃ st, Combine.construct ⟨true, 0, 0, 2, 2, [1, 3], [0, 0], [1, 1], true⟩ =
        Except.ok st ∧
      st.coefficients =
        ([1, 3] : List ℚ).map (fun c => c * (1 / ([1, 3] : List ℚ).sum)) ∧
      st.coefficients.sum = 1 :=
  construct_normalize_sum_one ⟨true, 0, 0, 2, 2, [1, 3], [0, 0], [1, 1], true⟩
    rfl (by norm_num) (by simp) rfl rfl rfl

/-- Counterexample for C7: `NORMALIZE` with the zero-sum coefficients
`[1, -1]` is not rejected; the constructor completes, multiplying each
coefficient by `1/0` (exact arithmetic renders the degenerate result as 0):
no configuration error is raised. -/
theorem construct_zero_sum_counterexample :
    Combine.construct ⟨true, 0, 0, 2, 2, [1, -1], [0, 0], [1, 1], true⟩ =
      Except.ok ⟨[0, 0], [0, 0], [1, 1]⟩ := by
  simp [Combine.construct, Combine.nargs]

/-- C7 as amended: when `NORMALIZE` is set and the coefficients sum to
exactly zero, `Combine::Combine` performs no zero-sum check: construction
completes without error and every coefficient is multiplied by `1/0`, so in
the exact-arithmetic model all coefficients become 0 (degenerate output
instead of a refusal). -/
theorem construct_zero_sum_completes (o : CombineOptions)
    (hnorm : o.normalize = true)
    (hsum : o.coefficientsIn.sum = 0)
    (hrank : ¬(o.numberedkeys = false ∧ 0 < o.firstArgRank ∧ o.argEndsSize ≠ 2))
    (hc : o.coefficientsIn.length = Combine.nargs o)
    (hp : o.parametersIn.length = Combine.nargs o)
    (hq : o.powersIn.length = Combine.nargs o) :
    ∃ st, Combine.construct o = Except.ok st ∧
      ∀ c ∈ st.coefficients, c = 0 := by
  refine ⟨⟨o.coefficientsIn.map (fun c => c * (1 / o.coefficientsIn.sum)),
    o.parametersIn, o.powersIn⟩, ?_, ?_⟩
  · unfold Combine.construct
    rw [if_neg hrank, if_neg (not_not_intro hc), if_neg (not_not_intro hp),
      if_neg (not_not_intro hq)]
    simp [hnorm]
  · intro c hmem
    simp only [List.mem_map] at hmem
    obtain ⟨x, _, rfl⟩ := hmem
    rw [hsum]
    norm_num

/-- Witness for the amended C7: zero-sum coefficients `[2, -2]` under
`NORMALIZE` produce a successful construction whose coefficients are all 0. -/
theorem construct_zero_sum_completes_witness :
    ∃ st, Combine.construct ⟨true, 0, 0, 2, 2, [2, -2], [0, 0], [1, 1], true⟩ =
        Except.ok st ∧ ∀ c ∈ st.coefficients, c = 0 :=
  construct_zero_sum_completes ⟨true, 0, 0, 2, 2, [2, -2], [0, 0], [1, 1], true⟩
    rfl (by norm_num) (by simp) rfl rfl rfl

/-- C8: whenever the parsed `COEFFICIENTS`, `PARAMETERS` or `POWERS` vector
has a length different from the number of (scalar) arguments, the
constructor fails with a setup-time configuration error: no `CombineState`
is ever produced. -/
theorem construct_size_mismatch_error (o : CombineOptions)
    (h : o.coefficientsIn.length ≠ Combine.nargs o ∨
         o.parametersIn.length ≠ Combine.nargs o ∨
         o.powersIn.length ≠ Combine.nargs o) :
    ∃ e, Combine.construct o = Except.error e := by
  unfold Combine.construct
  by_cases h0 : o.numberedkeys = false ∧ 0 < o.firstArgRank ∧ o.argEndsSize ≠ 2
  · rw [if_pos h0]; exact ⟨_, rfl⟩
  · rw [if_neg h0]
    by_cases h1 : o.coefficientsIn.length ≠ Combine.nargs o
    · rw [if_pos h1]; exact ⟨_, rfl⟩
    · rw [if_neg h1]
      by_cases h2 : o.parametersIn.length ≠ Combine.nargs o
      · rw [if_pos h2]; exact ⟨_, rfl⟩
      · rw [if_neg h2]
        have h3 : o.powersIn.length ≠ Combine.nargs o := by tauto
        rw [if_pos h3]; exact ⟨_, rfl⟩

/-- Witness for C8: a `COEFFICIENTS` vector of length 2 against a single
argument makes construction fail. -/
theorem construct_size_mismatch_error_witness :
    ∃ e, Combine.construct ⟨true, 0, 0, 1, 1, [1, 2], [0], [1], false⟩ =
      Except.error e :=
  construct_size_mismatch_error ⟨true, 0, 0, 1, 1, [1, 2], [0], [1], false⟩
    (Or.inl (by decide))

/-!
The hand-coded reference structures of the ten registered motif subclasses
of `ContinuousSSRMSD` (the `getRefStructure` overrides), transcribed from
the `peptoidsecondarystructure` sources.  Each `Vector` becomes a rational
3D point.
-/

/-- A 3D point of a reference structure (`PLMD::Vector`). -/
def Vec3 : Type := ℚ × ℚ × ℚ

/-- Reference structure of `ALPHADMINUSTRANSRMSD`. -/
def AlphaDMinusTransRMSD.getRefStructure : List Vec3 :=
  [(-0.695, -2.153, -0.137), (0.505, -2.273, 0.133), (-1.635, -2.923, 0.533),
   (-1.105, -3.843, 1.533), (-3.095, -2.733, 0.433), (0.335, 0.637, -0.337),
   (-0.365, 0.557, 0.703), (0.035, -0.183, -1.377), (-1.085, -1.153, -1.177),
   (0.575, -0.023, -2.727), (0.735, 3.627, 0.653), (-0.075, 3.727, -0.247),
   (1.595, 2.567, 0.753), (1.545, 1.637, -0.377), (2.735, 2.527, 1.633)]

/-- Reference structure of `ALPHADPLUSTRANSRMSD`. -/
def AlphaDPlusTransRMSD.getRefStructure : List Vec3 :=
  [(1.501, -1.523, 0.503), (0.661, -2.303, 0.193), (2.051, -1.673, 1.673),
   (1.491, -2.533, 2.693), (3.351, -1.193, 2.133), (-0.229, 0.607, -0.657),
   (-0.189, 0.707, 0.563), (0.801, -0.013, -1.317), (1.911, -0.363, -0.417),
   (3.241, 0.171, -0.772), (-2.699, 2.577, -0.137), (-1.769, 3.437, -0.237),
   (-2.559, 1.297, -0.527), (-1.459, 1.137, -1.437), (-3.609, 0.267, -0.357)]

/-- Reference structure of `ALPHAMINUSCISRMSD`. -/
def AlphaMinusCisRMSD.getRefStructure : List Vec3 :=
  [(0.561, 0.555, -1.831), (-0.329, 1.365, -2.011), (0.721, -0.545, -2.601),
   (1.971, -1.365, -2.601), (-0.359, -1.095, -3.441), (0.371, -0.985, 0.919),
   (0.591, -2.085, 1.399), (1.391, -0.125, 0.579), (1.441, 0.785, -0.601),
   (2.491, 0.065, 1.549), (-1.689, 0.595, 2.739), (-2.049, 1.665, 3.239),
   (-1.609, 0.465, 1.379), (-1.089, -0.685, 0.629), (-2.419, 1.385, 0.649)]

/-- Reference structure of `ALPHAMINUSTRANSRMSD`. -/
def AlphaMinusTransRMSD.getRefStructure : List Vec3 :=
  [(0.689, 0.490, -2.292), (1.299, -0.410, -2.882), (1.289, 1.700, -2.042),
   (2.659, 1.940, -2.602), (0.379, 2.830, -1.752), (0.089, -0.730, 0.318),
   (1.199, -0.200, 0.188), (-0.951, -0.530, -0.552), (-0.741, 0.140, -1.832),
   (-2.241, -1.200, -0.422), (-1.041, 0.070, 3.178), (-0.461, 0.930, 2.518),
   (-0.861, -1.210, 2.838), (-0.081, -1.500, 1.628), (-1.221, -2.320, 3.708)]

/-- Reference structure of `ALPHAPLUSCISRMSD`. -/
def AlphaPlusCisRMSD.getRefStructure : List Vec3 :=
  [(1.673, 0.611, 0.773), (1.903, 1.671, 0.263), (1.813, 0.531, 2.113),
   (2.543, -0.679, 2.623), (1.183, 1.541, 2.903), (-1.107, -0.649, 0.403),
   (-2.057, -1.109, 1.0331), (0.103, -1.349, 0.283), (1.323, -0.599, -0.097),
   (-0.077, -2.789, 0.073), (-1.947, -0.259, -2.417), (-1.547, -0.389, -3.577),
   (-1.377, 0.761, -1.737), (-1.277, 0.711, -0.247), (-1.147, 2.001, -2.397)]

/-- Reference structure of `ALPHAPLUSTRANSRMSD`. -/
def AlphaPlusTransRMSD.getRefStructure : List Vec3 :=
  [(-0.657, -1.999, 1.185), (-0.647, -2.439, 2.345), (-1.817, -1.879, 0.525),
   (-3.167, -1.959, 1.195), (-1.727, -2.019, -0.945), (0.703, 0.621, 0.545),
   (-0.037, 0.551, 1.525), (1.143, -0.609, -0.085), (0.683, -1.819, 0.595),
   (2.293, -0.629, -1.055), (-0.167, 2.421, -1.745), (-1.067, 2.041, -1.035),
   (1.113, 2.441, -1.265), (1.283, 1.961, 0.145), (2.063, 3.311, -1.925)]

/-- Reference structure of `C7BETAMINUSCISRMSD`. -/
def C7BetaMinusCisRMSD.getRefStructure : List Vec3 :=
  [(-1.618, 1.192, -0.985), (-2.388, 0.242, -0.895), (-1.858, 2.342, -0.345),
   (-0.938, 3.592, -0.415), (-3.118, 2.572, 0.255), (1.122, -0.858, -0.755),
   (1.892, -1.838, -1.035), (0.162, -0.398, -1.625), (-0.258, 0.982, -1.515),
   (-0.058, -1.068, -2.855), (0.532, -1.498, 2.525), (0.802, -2.138, 3.575),
   (1.512, -1.228, 1.655), (1.382, -0.188, 0.545), (2.832, -1.708, 1.865)]

/-- Reference structure of `C7BETAMINUSTRANSRMSD`. -/
def C7BetaMinusTransRMSD.getRefStructure : List Vec3 :=
  [(1.391, -1.861, 1.332), (0.941, -2.991, 1.732), (2.731, -1.621, 1.132),
   (3.661, -2.681, 1.522), (3.341, -0.391, 0.512), (-0.089, 1.049, -0.178),
   (0.631, 1.769, 0.552), (-0.189, -0.321, 0.092), (0.341, -0.811, 1.322),
   (-0.809, -1.191, -0.868), (-3.169, 1.689, -2.098), (-2.709, 1.109, -3.038),
   (-2.339, 1.979, -1.018), (-0.919, 1.789, -1.238), (-2.809, 2.489, 0.242)]

/-- Reference structure of `C7BETAPLUSCISRMSD`. -/
def C7BetaPlusCisRMSD.getRefStructure : List Vec3 :=
  [(1.906, -0.661, 0.881), (1.946, -1.831, 0.491), (1.636, -0.431, 2.231),
   (1.806, 0.849, 2.941), (1.336, -1.621, 3.091), (-0.114, 0.779, -1.469),
   (-0.604, 0.919, -2.559), (1.196, 0.299, -1.359), (1.966, 0.499, -0.059),
   (1.906, 0.189, -2.589), (-2.644, -0.811, -0.129), (-3.794, -1.071, 0.281),
   (-2.254, 0.479, -0.549), (-0.954, 1.029, -0.349), (-3.334, 1.389, -0.859)]

/-- Reference structure of `C7BETAPLUSTRANSRMSD`. -/
def C7BetaPlusTransRMSD.getRefStructure : List Vec3 :=
  [(-2.424, -0.383, 1.022), (-2.834, -1.493, 1.432), (-3.294, 0.447, 0.242),
   (-4.704, -0.033, 0.142), (-2.814, 1.597, -0.538), (0.856, 0.167, -0.268),
   (0.646, 1.387, -0.138), (0.056, -0.653, 0.532), (-0.984, -0.103, 1.332),
   (0.026, -2.113, 0.422), (3.906, 0.117, -0.328), (3.516, -0.533, 0.642),
   (3.026, 0.397, -1.248), (1.856, -0.413, -1.208), (3.166, 1.617, -2.038)]

/-- The registered `ContinuousSSRMSD` subclasses (registration name and
reference structure); `ALPHADPLUSCISRMSD` derives from
`SecondaryStructureRMSD` directly and has no `getRefStructure`. -/
def registeredContinuousSSMotifs : List (String × List Vec3) :=
  [("ALPHADMINUSTRANSRMSD", AlphaDMinusTransRMSD.getRefStructure),
   ("ALPHADPLUSTRANSRMSD", AlphaDPlusTransRMSD.getRefStructure),
   ("ALPHAMINUSCISRMSD", AlphaMinusCisRMSD.getRefStructure),
   ("ALPHAMINUSTRANSRMSD", AlphaMinusTransRMSD.getRefStructure),
   ("ALPHAPLUSCISRMSD", AlphaPlusCisRMSD.getRefStructure),
   ("ALPHAPLUSTRANSRMSD", AlphaPlusTransRMSD.getRefStructure),
   ("C7BETAMINUSCISRMSD", C7BetaMinusCisRMSD.getRefStructure),
   ("C7BETAMINUSTRANSRMSD", C7BetaMinusTransRMSD.getRefStructure),
   ("C7BETAPLUSCISRMSD", C7BetaPlusCisRMSD.getRefStructure),
   ("C7BETAPLUSTRANSRMSD", C7BetaPlusTransRMSD.getRefStructure)]

/-- C10: every registered motif subclass's `getRefStructure` returns exactly
15 points (3 residues of `ATOMS_IN_BB_RES = 5` backbone atoms), which is
non-empty and an exact multiple of 5, so the two template-shape assertions
of `ContinuousSSRMSD::init` hold for every shipped motif and their failure
branches are unreachable. -/
theorem motif_refstructure_valid :
    ∀ p ∈ registeredContinuousSSMotifs,
      (p.2).length = 3 * ATOMS_IN_BB_RES ∧ (p.2).length ≠ 0 ∧
        (p.2).length % ATOMS_IN_BB_RES = 0 := by
  decide

/-- Witness for C10 at the first registered motif. -/
theorem motif_refstructure_valid_witness :
    AlphaDMinusTransRMSD.getRefStructure.length = 3 * ATOMS_IN_BB_RES ∧
    AlphaDMinusTransRMSD.getRefStructure.length ≠ 0 ∧
    AlphaDMinusTransRMSD.getRefStructure.length % ATOMS_IN_BB_RES = 0 :=
  motif_refstructure_valid ("ALPHADMINUSTRANSRMSD", AlphaDMinusTransRMSD.getRefStructure)
    (by unfold registeredContinuousSSMotifs; exact List.mem_cons_self _ _)

end Plumed
